import Mathlib

/-!
Shallow embedding of `.github/scripts/send_daily_log.js` (the single script of
the chatbot repository): a batch job that parses a CSV conversation log,
selects rows by date according to a mode (`DAILY` / `RESET`), and sends the
formatted selection through an HTTP email provider.

Host functionality that the script calls but that is not part of the
repository (ECMAScript `new Date(string)` parsing, `Date.now()`,
`toISOString`) is abstracted as an explicit environment `JsEnv`; everything
else is translated directly from the source.
-/

namespace SendDailyLog

/-- One parsed CSV record: a JS array of string fields. -/
abbrev Row := List String

/-! ## CSV parser (`parseCSV`, source lines 45–91)

The JS function iterates character by character with one lookahead
(`nextChar`), maintaining `records`, `currentRecord`, `currentField` and
`insideQuotes`.  We embed one loop iteration as `csvStep` (returning the
updated state and whether the lookahead character was additionally consumed,
the JS `i++` skips), and the loop as structural recursion over the list of
characters. -/

/-- The mutable locals of `parseCSV`. -/
structure CSVState where
  records : List Row
  currentRecord : List String
  currentField : String
  insideQuotes : Bool
deriving DecidableEq

/-- The record-flush block of the parser: if the current field or record is
non-empty (JS truthiness of `currentField || currentRecord.length > 0`), emit
`currentRecord ++ [currentField]` and reset; otherwise leave the state
unchanged.  This block appears inline in the source at the line-break case
(lines 74–79) and at end-of-input (lines 86–89). -/
def flushRecord (st : CSVState) : CSVState :=
  if st.currentField ≠ "" ∨ st.currentRecord ≠ [] then
    { records := st.records ++ [st.currentRecord ++ [st.currentField]],
      currentRecord := [], currentField := "", insideQuotes := st.insideQuotes }
  else st

/-- One iteration of the character loop (source lines 52–84), given the
current character and the lookahead `nextChar` (`none` at end of text).
Returns the updated state and `true` when the lookahead character was also
consumed (the `i++` of the escaped-quote and `\r\n` cases). -/
def csvStep (st : CSVState) (c : Char) (nextChar : Option Char) :
    CSVState × Bool :=
  if c = '"' then
    if st.insideQuotes ∧ nextChar = some '"' then
      ({ st with currentField := st.currentField.push '"' }, true)
    else
      ({ st with insideQuotes := !st.insideQuotes }, false)
  else if c = ',' ∧ st.insideQuotes = false then
    ({ st with currentRecord := st.currentRecord ++ [st.currentField],
               currentField := "" }, false)
  else if (c = '\r' ∨ c = '\n') ∧ st.insideQuotes = false then
    (flushRecord st, c = '\r' ∧ nextChar = some '\n')
  else
    ({ st with currentField := st.currentField.push c }, false)

/-- The character loop of `parseCSV`, followed by the final flush
(source lines 86–89).  `skip` is true when the previous iteration consumed
the lookahead (the JS `i++`), in which case the current character is dropped
unprocessed; `csvStep` only sets it when a lookahead character exists, so
`skip` is never true at end of input. -/
def parseCSVGo (st : CSVState) (skip : Bool) : List Char → List Row
  | [] => (flushRecord st).records
  | c :: rest =>
      if skip then
        parseCSVGo st false rest
      else
        let step := csvStep st c rest.head?
        parseCSVGo step.1 step.2 rest

/-- `parseCSV(text)`: run the loop from the initial state. -/
def parseCSV (text : String) : List Row :=
  parseCSVGo { records := [], currentRecord := [], currentField := "",
               insideQuotes := false } false text.data

/-! ## Host environment

The script reads the clock and parses timestamps through the ECMAScript
`Date` built-ins, which are host functionality, not repository code.  They
are abstracted as an environment: `parseDate` models
`s => { const d = new Date(s); return isNaN(d.getTime()) ? null : d }`
(source lines 101–105), returning the epoch milliseconds or `none` for an
invalid date; `nowMs` models `new Date()` at the start of the run (line 96),
and `todayString` models `now.toISOString().split('T')[0]` (line 97). -/

structure JsEnv where
  parseDate : String → Option Int
  nowMs : Int
  todayString : String

/-- `24 * 60 * 60 * 1000` (source line 98). -/
def oneDay : Int := 24 * 60 * 60 * 1000

/-- `String.prototype.startsWith`, written over the character lists so that
it evaluates in the kernel. -/
def jsStartsWith (s pre : String) : Bool :=
  pre.data.isPrefixOf s.data

/-- `String.prototype.trim`: strip leading and trailing whitespace. -/
def jsTrim (s : String) : String :=
  String.mk (((s.data.dropWhile Char.isWhitespace).reverse.dropWhile
    Char.isWhitespace).reverse)

/-! ## Selector (source lines 93–155) -/

/-- `parsedLogs.slice(1).filter(row => row.length >= 6)` (source line 108):
drop the presumed header row, keep only rows with at least 6 fields. -/
def dataRows (parsedLogs : List Row) : List Row :=
  (parsedLogs.drop 1).filter (fun row => decide (6 ≤ row.length))

/-- The per-row predicate of the DAILY activity scan (source lines 123–126):
`dateStr && dateStr.startsWith(todayString)` on `row[1]`, a raw string-prefix
comparison (no date parsing). -/
def isTodayRow (env : JsEnv) (row : Row) : Bool :=
  decide (row.getD 1 "" ≠ "") && jsStartsWith (row.getD 1 "") env.todayString

/-- `dataRows.some(...)` (source lines 122–126). -/
def hasTodayActivity (env : JsEnv) (rows : List Row) : Bool :=
  rows.any (isTodayRow env)

/-- `new Date(now.getTime() - (7 * oneDay))` (source lines 114 and 137). -/
def sevenDaysAgo (env : JsEnv) : Int :=
  env.nowMs - 7 * oneDay

/-- The 7-day filter predicate (source lines 115–119 and 139–143): parse
`row[1]`; drop the row if parsing fails, otherwise keep it iff
`rowDate >= sevenDaysAgo`.  Note there is no upper bound on the date. -/
def inWindow (env : JsEnv) (row : Row) : Bool :=
  match env.parseDate (row.getD 1 "") with
  | none => false
  | some d => decide (sevenDaysAgo env ≤ d)

/-- The sort key of the final sort (source lines 151–155): the parsed date of
`row[1]` in milliseconds.  All sorted rows passed the window filter, so their
dates parsed; the `getD 0` default is never relevant there. -/
def sortKey (env : JsEnv) (row : Row) : Int :=
  (env.parseDate (row.getD 1 "")).getD 0

/-- `logsToSend.sort((a, b) => dateB - dateA)` (source lines 151–155):
a comparator sort placing `a` before `b` when `dateB - dateA <= 0`.  JS
`Array.prototype.sort` is modelled by a stable comparison sort. -/
def sortByDateDesc (env : JsEnv) (logsToSend : List Row) : List Row :=
  List.insertionSort (fun a b => sortKey env b ≤ sortKey env a) logsToSend

/-- Outcome of the selection phase: either exit 0 with no email
(`process.exit(0)` at lines 129–131 or 145–148) or send the given rows. -/
inductive SelectOutcome where
  | noEmail : SelectOutcome
  | send : List Row → SelectOutcome
deriving DecidableEq

/-- The common tail of both modes (source lines 145–155): exit with no email
when `logsToSend.length === 0`, otherwise sort descending and send. -/
def mkOutcome (env : JsEnv) (logsToSend : List Row) : SelectOutcome :=
  if logsToSend.length = 0 then SelectOutcome.noEmail
  else SelectOutcome.send (sortByDateDesc env logsToSend)

/-- The mode branch (source lines 110–143) followed by the common tail:
RESET filters the last 7 days unconditionally; any other mode (DAILY is the
default) first requires some row dated today, exiting with no email
otherwise, then applies the same 7-day filter. -/
def selectLogs (env : JsEnv) (MODE : String) (parsedLogs : List Row) :
    SelectOutcome :=
  let rows := dataRows parsedLogs
  if MODE = "RESET" then
    mkOutcome env (rows.filter (inWindow env))
  else
    if hasTodayActivity env rows then
      mkOutcome env (rows.filter (inWindow env))
    else
      SelectOutcome.noEmail

/-- Modelled from the spec: the claims describe the selection bound as "the
trailing 7×24-hour window ending at the run's start time".  This predicate
follows those words (both a lower and an upper bound); it is compared against
the code's `inWindow`, which has no upper bound. -/
def inWindowSpec (env : JsEnv) (row : Row) : Bool :=
  match env.parseDate (row.getD 1 "") with
  | none => false
  | some d => decide (env.nowMs - 7 * oneDay ≤ d ∧ d ≤ env.nowMs)

/-! ## Whole-run model (source lines 1–43 and 157–231)

The observable effects of one invocation, in order: reading the log file and
issuing the outbound HTTP request, ending in `process.exit` with a code
(falling off the end of the script is exit 0).  `RunInput` carries the
process-level inputs: the secret environment variable, the state of the file
system, the mode argument, and the provider's HTTP response
(`none` = transport error). -/

inductive Event where
  | statFile : Event
  | readFile : Event
  | httpSend : Event
  | exitCode : Nat → Event
deriving DecidableEq

structure RunInput where
  privateKey : Option String
  fileExists : Bool
  readOk : Bool
  logContent : String
  mode : String
  httpStatus : Option Nat

/-- The linear control flow of the script: the `PRIVATE_KEY` guard (lines
9–14), the `existsSync`/`readFileSync` block (lines 24–35), the emptiness
check `!logContent.trim()` (lines 37–40), the selector, and the request with
its 200/201 success check (lines 196–231).  `privateKey.getD "" = ""` models
JS falsiness of `process.env.EMAILJS_PRIVATE_KEY` (absent or empty). -/
def runScript (env : JsEnv) (inp : RunInput) : List Event :=
  if inp.privateKey.getD "" = "" then
    [Event.exitCode 1]
  else if inp.fileExists = false then
    [Event.statFile, Event.exitCode 0]
  else if inp.readOk = false then
    [Event.statFile, Event.readFile, Event.exitCode 1]
  else if jsTrim inp.logContent = "" then
    [Event.statFile, Event.readFile, Event.exitCode 0]
  else
    match selectLogs env inp.mode (parseCSV inp.logContent) with
    | SelectOutcome.noEmail => [Event.statFile, Event.readFile, Event.exitCode 0]
    | SelectOutcome.send _ =>
        [Event.statFile, Event.readFile, Event.httpSend,
         Event.exitCode
           (match inp.httpStatus with
            | none => 1
            | some s => if s = 200 ∨ s = 201 then 0 else 1)]

/-! ## A concrete host environment and rows, for evaluating the definitions

The run starts at 2026-10-11T12:00:00Z (epoch 1791720000000 ms, day
20737 since 1970-01-01), so `todayString = "2026-10-11"`.  `exDate` gives the
actual ECMAScript parses of the five timestamp strings used below; the last
one (`hour 99`) is an invalid date. -/

def exDate (s : String) : Option Int :=
  if s = "2026-10-11T09:00:00Z" then some 1791709200000
  else if s = "2026-10-12T00:00:00Z" then some 1791763200000
  else if s = "2026-10-10T12:00:00Z" then some 1791633600000
  else if s = "2026-09-01T00:00:00Z" then some 1788220800000
  else none

def exEnv : JsEnv :=
  { parseDate := exDate, nowMs := 1791720000000, todayString := "2026-10-11" }

def headerRow : Row :=
  ["conversationId", "timestamp", "ip", "country", "languages", "transcript"]

def rowToday : Row :=
  ["c1", "2026-10-11T09:00:00Z", "1.2.3.4", "US", "en", "hello"]

def rowFuture : Row :=
  ["c2", "2026-10-12T00:00:00Z", "1.2.3.5", "US", "en", "hi"]

def rowYesterday : Row :=
  ["c3", "2026-10-10T12:00:00Z", "1.2.3.6", "RO", "ro", "salut"]

def rowOld : Row :=
  ["c4", "2026-09-01T00:00:00Z", "1.2.3.7", "FR", "fr", "bonjour"]

def rowBadDate : Row :=
  ["c5", "2026-10-11T99:99:99Z", "1.2.3.8", "DE", "de", "hallo"]

/-- A data row with fewer than 6 fields (here 2), dated today. -/
def rowShort : Row := ["x", "2026-10-11T09:00:00Z"]

/-- A parser state outside quotes with a pending field `ab`. -/
def exPendState : CSVState :=
  { records := [], currentRecord := [], currentField := "ab",
    insideQuotes := false }

/-- A log whose only data row is dated 2026-09-01, i.e. not today. -/
def exNoTodayCsv : String :=
  "conversationId,timestamp,ip,country,languages,transcript\nc4,2026-09-01T00:00:00Z,1.2.3.7,FR,fr,bonjour"

def exInpNoToday : RunInput :=
  { privateKey := some "secret", fileExists := true, readOk := true,
    logContent := exNoTodayCsv, mode := "DAILY", httpStatus := some 200 }

def exInpNoKey : RunInput :=
  { privateKey := none, fileExists := true, readOk := true,
    logContent := "a,b", mode := "DAILY", httpStatus := some 200 }

/-! ## Helper lemmas -/

theorem mem_sortFilter {env : JsEnv} {logs : List Row} {row : Row} :
    row ∈ sortByDateDesc env ((dataRows logs).filter (inWindow env)) ↔
      row ∈ dataRows logs ∧ inWindow env row = true := by
  rw [sortByDateDesc, (List.perm_insertionSort _ _).mem_iff, List.mem_filter]

theorem sortByDateDesc_sorted (env : JsEnv) (l : List Row) :
    (sortByDateDesc env l).Pairwise
      (fun a b => sortKey env b ≤ sortKey env a) := by
  haveI : IsTotal Row (fun a b => sortKey env b ≤ sortKey env a) :=
    ⟨fun a b => le_total (sortKey env b) (sortKey env a)⟩
  haveI : IsTrans Row (fun a b => sortKey env b ≤ sortKey env a) :=
    ⟨fun a b c hab hbc => le_trans hbc hab⟩
  exact List.sorted_insertionSort _ l

theorem selectLogs_send_eq {env : JsEnv} {MODE : String} {logs : List Row}
    {out : List Row} (h : selectLogs env MODE logs = SelectOutcome.send out) :
    out = sortByDateDesc env ((dataRows logs).filter (inWindow env)) := by
  simp only [selectLogs, mkOutcome] at h
  repeat' split at h
  all_goals simp_all

theorem mem_dataRows_length {logs : List Row} {row : Row}
    (h : row ∈ dataRows logs) : 6 ≤ row.length := by
  rw [dataRows, List.mem_filter] at h
  exact of_decide_eq_true h.2

/-! ## Claims -/

/-- Claim C1, counterexample.  The claim states that in DAILY mode, given a
today-dated row, the report contains exactly the data rows whose parsed
timestamp lies within the trailing 7×24-hour window ending at the run's start
time.  This fails: the code's filter has no upper bound, so a row dated after
the run's start time (here 2026-10-12, with the run starting
2026-10-11T12:00:00Z) is placed in the report although it is outside that
window. -/
theorem C1_daily_window_counterexample :
    hasTodayActivity exEnv (dataRows [headerRow, rowToday, rowFuture]) = true ∧
    selectLogs exEnv "DAILY" [headerRow, rowToday, rowFuture]
      = SelectOutcome.send [rowFuture, rowToday] ∧
    rowFuture ∈ [rowFuture, rowToday] ∧
    inWindowSpec exEnv rowFuture = false ∧
    exEnv.nowMs < sortKey exEnv rowFuture := by decide

/-- Claim C1 (amended): in DAILY mode, if at least one data row's timestamp
field begins with today's date string and the 7-day filter keeps at least one
row, then the set of rows placed in the report is exactly the data rows whose
parsed timestamp is at least `now − 7×24h` (rows older than 7 days are
excluded; the code imposes no upper bound, so future-dated rows are also
included), and these rows are sorted by parsed timestamp descending. -/
theorem C1_daily_window_amended (env : JsEnv) (logs : List Row)
    (htoday : hasTodayActivity env (dataRows logs) = true)
    (hne : (dataRows logs).filter (inWindow env) ≠ []) :
    selectLogs env "DAILY" logs
      = SelectOutcome.send
          (sortByDateDesc env ((dataRows logs).filter (inWindow env))) ∧
    (sortByDateDesc env ((dataRows logs).filter (inWindow env))).Perm
      ((dataRows logs).filter (inWindow env)) ∧
    (∀ row, row ∈ sortByDateDesc env ((dataRows logs).filter (inWindow env)) ↔
      row ∈ dataRows logs ∧ inWindow env row = true) ∧
    (sortByDateDesc env ((dataRows logs).filter (inWindow env))).Pairwise
      (fun a b => sortKey env b ≤ sortKey env a) := by
  refine ⟨?_, List.perm_insertionSort _ _, fun row => mem_sortFilter,
    sortByDateDesc_sorted env _⟩
  simp only [selectLogs, mkOutcome]
  rw [if_neg (by decide : ¬ (("DAILY" : String) = "RESET")), if_pos htoday,
    if_neg (by simpa [List.length_eq_zero] using hne)]

/-- Witness for C1 (amended) at a concrete log with a today-dated row and a
yesterday row, both inside the window. -/
theorem C1_daily_window_amended_witness :
    selectLogs exEnv "DAILY" [headerRow, rowToday, rowYesterday]
      = SelectOutcome.send (sortByDateDesc exEnv
          ((dataRows [headerRow, rowToday, rowYesterday]).filter
            (inWindow exEnv))) ∧
    (sortByDateDesc exEnv ((dataRows [headerRow, rowToday, rowYesterday]).filter
        (inWindow exEnv))).Perm
      ((dataRows [headerRow, rowToday, rowYesterday]).filter (inWindow exEnv)) ∧
    (∀ row, row ∈ sortByDateDesc exEnv
        ((dataRows [headerRow, rowToday, rowYesterday]).filter (inWindow exEnv)) ↔
      row ∈ dataRows [headerRow, rowToday, rowYesterday] ∧
        inWindow exEnv row = true) ∧
    (sortByDateDesc exEnv ((dataRows [headerRow, rowToday, rowYesterday]).filter
        (inWindow exEnv))).Pairwise
      (fun a b => sortKey exEnv b ≤ sortKey exEnv a) :=
  C1_daily_window_amended exEnv [headerRow, rowToday, rowYesterday]
    (by decide) (by decide)

/-- Claim C2: in DAILY mode (with the secret present and a readable log
file), if no data row's timestamp field begins with today's date string, the
run terminates with exit code 0 and no outbound HTTP request is made. -/
theorem C2_daily_no_today_no_email (env : JsEnv) (inp : RunInput)
    (hkey : inp.privateKey.getD "" ≠ "")
    (hfile : inp.fileExists = true)
    (hread : inp.readOk = true)
    (hmode : inp.mode = "DAILY")
    (htoday : hasTodayActivity env (dataRows (parseCSV inp.logContent))
      = false) :
    runScript env inp = [Event.statFile, Event.readFile, Event.exitCode 0] ∧
    Event.httpSend ∉ runScript env inp := by
  have hrun : runScript env inp
      = [Event.statFile, Event.readFile, Event.exitCode 0] := by
    unfold runScript
    rw [if_neg hkey, if_neg (by simp [hfile]), if_neg (by simp [hread])]
    by_cases htrim : jsTrim inp.logContent = ""
    · rw [if_pos htrim]
    · rw [if_neg htrim, hmode]
      have hsel : selectLogs env "DAILY" (parseCSV inp.logContent)
          = SelectOutcome.noEmail := by
        simp only [selectLogs]
        rw [if_neg (by decide : ¬ (("DAILY" : String) = "RESET")),
          if_neg (by simp [htoday])]
      rw [hsel]
  exact ⟨hrun, by rw [hrun]; decide⟩

/-- Witness for C2 at a concrete run whose log holds one data row dated
2026-09-01, with the run starting 2026-10-11. -/
theorem C2_daily_no_today_no_email_witness :
    runScript exEnv exInpNoToday
      = [Event.statFile, Event.readFile, Event.exitCode 0] ∧
    Event.httpSend ∉ runScript exEnv exInpNoToday :=
  C2_daily_no_today_no_email exEnv exInpNoToday (by decide) rfl rfl rfl
    (by decide)

/-- Claim C3, counterexample.  The claim states that a data row whose
timestamp fails to parse is excluded from the DAILY today-activity check.
This fails: the today-activity check is a raw string-prefix comparison that
never parses the timestamp, so the row `rowBadDate` (timestamp
`2026-10-11T99:99:99Z`, which does not parse) satisfies it and triggers the
email; without that row the same log produces no email. -/
theorem C3_unparseable_counterexample :
    exEnv.parseDate (rowBadDate.getD 1 "") = none ∧
    isTodayRow exEnv rowBadDate = true ∧
    hasTodayActivity exEnv (dataRows [headerRow, rowBadDate, rowYesterday])
      = true ∧
    selectLogs exEnv "DAILY" [headerRow, rowBadDate, rowYesterday]
      = SelectOutcome.send [rowYesterday] ∧
    selectLogs exEnv "DAILY" [headerRow, rowYesterday]
      = SelectOutcome.noEmail := by decide

/-- Claim C3 (amended): a data row whose timestamp fails to parse is excluded
from the trailing 7-day window selection in both modes and never appears in
a sent report; however, the DAILY today-activity check compares raw string
prefixes without parsing, so such a row can still satisfy it and trigger an
email. -/
theorem C3_unparseable_amended (env : JsEnv) (mode : String) (logs : List Row)
    (row : Row) (hparse : env.parseDate (row.getD 1 "") = none) :
    inWindow env row = false ∧
    ∀ out, selectLogs env mode logs = SelectOutcome.send out → row ∉ out := by
  have hw : inWindow env row = false := by
    unfold inWindow
    rw [hparse]
  refine ⟨hw, fun out hout hmem => ?_⟩
  rw [selectLogs_send_eq hout, mem_sortFilter] at hmem
  simp [hw] at hmem

/-- Witness for C3 (amended): the unparseable row is outside the window and
absent from the concrete report it triggered. -/
theorem C3_unparseable_amended_witness :
    inWindow exEnv rowBadDate = false ∧ rowBadDate ∉ [rowYesterday] :=
  ⟨(C3_unparseable_amended exEnv "DAILY" [headerRow, rowBadDate, rowYesterday]
      rowBadDate (by decide)).1,
   (C3_unparseable_amended exEnv "DAILY" [headerRow, rowBadDate, rowYesterday]
      rowBadDate (by decide)).2 [rowYesterday] (by decide)⟩

/-- Claim C4: if the secret environment variable is absent, the run is
exactly `process.exit(1)`: no file-existence check, no file read, and no
HTTP request ever happens. -/
theorem C4_missing_secret (env : JsEnv) (inp : RunInput)
    (h : inp.privateKey = none) :
    runScript env inp = [Event.exitCode 1] ∧
    Event.statFile ∉ runScript env inp ∧
    Event.readFile ∉ runScript env inp ∧
    Event.httpSend ∉ runScript env inp := by
  have hrun : runScript env inp = [Event.exitCode 1] := by
    unfold runScript
    rw [if_pos (by rw [h]; rfl)]
  refine ⟨hrun, ?_, ?_, ?_⟩ <;> rw [hrun] <;> decide

/-- Witness for C4 at a concrete input with the secret absent. -/
theorem C4_missing_secret_witness :
    runScript exEnv exInpNoKey = [Event.exitCode 1] ∧
    Event.statFile ∉ runScript exEnv exInpNoKey ∧
    Event.readFile ∉ runScript exEnv exInpNoKey ∧
    Event.httpSend ∉ runScript exEnv exInpNoKey :=
  C4_missing_secret exEnv exInpNoKey rfl

/-- Claim C5, counterexample.  The claim states that in RESET mode the
selected set is exactly the data rows whose parsed timestamp lies within the
trailing 7×24-hour window.  The gate-skipping part holds (here no row is
today-dated, yet a report is sent), but the window part fails: the code's
filter has no upper bound, so the row dated after the run's start time is
selected although it is outside that window. -/
theorem C5_reset_window_counterexample :
    hasTodayActivity exEnv (dataRows [headerRow, rowFuture, rowOld]) = false ∧
    selectLogs exEnv "RESET" [headerRow, rowFuture, rowOld]
      = SelectOutcome.send [rowFuture] ∧
    inWindowSpec exEnv rowFuture = false ∧
    exEnv.nowMs < sortKey exEnv rowFuture := by decide

/-- Claim C5 (amended): in RESET mode the same-day-activity gate is skipped:
for every log (in particular one with zero today-dated rows) the selected set
is exactly the data rows whose parsed timestamp is at least `now − 7×24h`
(no upper bound, so future-dated rows are also selected), sorted by parsed
timestamp descending; and if zero rows are selected the run terminates with
no outbound request. -/
theorem C5_reset_window_amended (env : JsEnv) (logs : List Row) :
    ((dataRows logs).filter (inWindow env) = [] →
      selectLogs env "RESET" logs = SelectOutcome.noEmail) ∧
    ((dataRows logs).filter (inWindow env) ≠ [] →
      selectLogs env "RESET" logs
        = SelectOutcome.send
            (sortByDateDesc env ((dataRows logs).filter (inWindow env))) ∧
      (sortByDateDesc env ((dataRows logs).filter (inWindow env))).Perm
        ((dataRows logs).filter (inWindow env)) ∧
      (∀ row, row ∈ sortByDateDesc env
          ((dataRows logs).filter (inWindow env)) ↔
        row ∈ dataRows logs ∧ inWindow env row = true) ∧
      (sortByDateDesc env ((dataRows logs).filter (inWindow env))).Pairwise
        (fun a b => sortKey env b ≤ sortKey env a)) := by
  constructor
  · intro hnil
    simp only [selectLogs, mkOutcome]
    rw [if_pos trivial, if_pos (by simp [hnil])]
  · intro hne
    refine ⟨?_, List.perm_insertionSort _ _, fun row => mem_sortFilter,
      sortByDateDesc_sorted env _⟩
    simp only [selectLogs, mkOutcome]
    rw [if_pos trivial, if_neg (by simpa [List.length_eq_zero] using hne)]

/-- Witness for C5 (amended): the empty-selection side on a log whose only
data row is 40 days old, and the sending side on a log whose only data row is
one day old (neither log has a today-dated row). -/
theorem C5_reset_window_amended_witness :
    selectLogs exEnv "RESET" [headerRow, rowOld] = SelectOutcome.noEmail ∧
    selectLogs exEnv "RESET" [headerRow, rowYesterday]
      = SelectOutcome.send
          (sortByDateDesc exEnv
            ((dataRows [headerRow, rowYesterday]).filter (inWindow exEnv))) :=
  ⟨(C5_reset_window_amended exEnv [headerRow, rowOld]).1 (by decide),
   ((C5_reset_window_amended exEnv [headerRow, rowYesterday]).2
      (by decide)).1⟩

/-- Claim C6: the parser treats a comma inside a quoted region as literal
field content, not a separator: `a,"b,c",d` parses to the single record
`[a, b,c, d]` with three fields, the middle one containing the comma. -/
theorem C6_quoted_comma :
    parseCSV "a,\"b,c\",d" = [["a", "b,c", "d"]] := by decide

/-- Claim C7: two consecutive double quotes inside a quoted region parse as
one literal double-quote character: `"he said ""hi"""` parses to the single
field `he said "hi"`. -/
theorem C7_escaped_quote :
    parseCSV "\"he said \"\"hi\"\"\"" = [["he said \"hi\""]] := by decide

/-- Claim C8: a line break inside a quoted region does not end the record
(`id1,"line1\nline2",ip` is one record of three fields, the middle field
containing the newline); outside quotes, a `\r\n` pair is collapsed to one
record terminator that, like a bare `\n`, flushes the current record. -/
theorem C8_embedded_newline :
    parseCSV "id1,\"line1\nline2\",ip" = [["id1", "line1\nline2", "ip"]] ∧
    (∀ st : CSVState, ∀ rest : List Char, st.insideQuotes = false →
      parseCSVGo st false ('\r' :: '\n' :: rest)
        = parseCSVGo st false ('\n' :: rest)) ∧
    (∀ st : CSVState, ∀ rest : List Char, st.insideQuotes = false →
      parseCSVGo st false ('\n' :: rest)
        = parseCSVGo (flushRecord st) false rest) := by
  refine ⟨by decide, ?_, ?_⟩
  · rintro ⟨recs, currec, curf, inq⟩ rest h
    change inq = false at h
    subst h
    rfl
  · rintro ⟨recs, currec, curf, inq⟩ rest h
    change inq = false at h
    subst h
    rfl

/-- Witness for the quantified parts of C8 at a concrete parser state with a
pending field `ab` outside quotes. -/
theorem C8_embedded_newline_witness :
    parseCSVGo exPendState false ['\r', '\n', 'x']
      = parseCSVGo exPendState false ['\n', 'x'] ∧
    parseCSVGo exPendState false ['\n', 'x']
      = parseCSVGo (flushRecord exPendState) false ['x'] :=
  ⟨C8_embedded_newline.2.1 exPendState ['x'] rfl,
   C8_embedded_newline.2.2 exPendState ['x'] rfl⟩

/-- Claim C9: a parsed row with fewer than 6 fields is discarded before
selection: it is not a data row, it never appears in a sent report, and the
today-activity check can only be satisfied by a row with at least 6
fields. -/
theorem C9_short_rows_discarded (env : JsEnv) (mode : String)
    (logs : List Row) (row : Row) (h : row.length < 6) :
    row ∉ dataRows logs ∧
    (∀ out, selectLogs env mode logs = SelectOutcome.send out → row ∉ out) ∧
    (hasTodayActivity env (dataRows logs) = true →
      ∃ r, r ∈ dataRows logs ∧ 6 ≤ r.length ∧ isTodayRow env r = true) := by
  have hnot : row ∉ dataRows logs := fun hmem =>
    absurd (mem_dataRows_length hmem) (by omega)
  refine ⟨hnot, fun out hout hmem => ?_, fun hact => ?_⟩
  · rw [selectLogs_send_eq hout, mem_sortFilter] at hmem
    exact hnot hmem.1
  · rw [hasTodayActivity, List.any_eq_true] at hact
    obtain ⟨r, hr, hpred⟩ := hact
    exact ⟨r, hr, mem_dataRows_length hr, hpred⟩

/-- Witness for C9: a 2-field row dated today neither is a data row nor
appears in the report of a concrete DAILY run that sends one. -/
theorem C9_short_rows_discarded_witness :
    rowShort ∉ dataRows [headerRow, rowToday, rowShort] ∧
    rowShort ∉ [rowToday] :=
  ⟨(C9_short_rows_discarded exEnv "DAILY" [headerRow, rowToday, rowShort]
      rowShort (by decide)).1,
   (C9_short_rows_discarded exEnv "DAILY" [headerRow, rowToday, rowShort]
      rowShort (by decide)).2.1 [rowToday] (by decide)⟩

/-- Claim C10: the first parsed record is unconditionally dropped as the
presumed header — the data rows (and hence the whole selection) are the same
whatever the first record is, with no check of its first field against
`conversationId` — so on an input with no header row the first record can
never be selected or reported in either mode. -/
theorem C10_header_always_dropped (env : JsEnv) (mode : String) :
    (∀ r0 r0' : Row, ∀ rest : List Row,
      dataRows (r0 :: rest) = dataRows (r0' :: rest)) ∧
    (∀ r0 r0' : Row, ∀ rest : List Row,
      selectLogs env mode (r0 :: rest) = selectLogs env mode (r0' :: rest)) ∧
    (∀ r0 : Row, ∀ rest : List Row, r0 ∉ rest →
      r0 ∉ dataRows (r0 :: rest) ∧
      ∀ out, selectLogs env mode (r0 :: rest) = SelectOutcome.send out →
        r0 ∉ out) := by
  refine ⟨fun r0 r0' rest => rfl, fun r0 r0' rest => rfl,
    fun r0 rest hnot => ?_⟩
  have hmem : r0 ∉ dataRows (r0 :: rest) := by
    intro hm
    rw [dataRows, List.mem_filter] at hm
    exact hnot (by simpa using hm.1)
  refine ⟨hmem, fun out hout hm => ?_⟩
  rw [selectLogs_send_eq hout, mem_sortFilter] at hm
  exact hmem hm.1

/-- Witness for C10: a headerless log whose first record is a valid
yesterday row; that first record is not a data row and is absent from the
report of the concrete DAILY run, while replacing it by the header row
changes nothing. -/
theorem C10_header_always_dropped_witness :
    dataRows (rowYesterday :: [rowToday])
      = dataRows (headerRow :: [rowToday]) ∧
    rowYesterday ∉ dataRows (rowYesterday :: [rowToday]) ∧
    rowYesterday ∉ [rowToday] :=
  ⟨(C10_header_always_dropped exEnv "DAILY").1 rowYesterday headerRow
      [rowToday],
   ((C10_header_always_dropped exEnv "DAILY").2.2 rowYesterday [rowToday]
      (by decide)).1,
   ((C10_header_always_dropped exEnv "DAILY").2.2 rowYesterday [rowToday]
      (by decide)).2 [rowToday] (by decide)⟩

end SendDailyLog
